import Mathlib

/-
Shallow embedding of the Review Aggregation & Scoring Engine of the
PR-review repository: the data model of
`src/pr_review_agent/core/models.py` and the engine logic of
`src/pr_review_agent/core/agent.py` (class `PRReviewAgent`), together with
theorems settling the specification claims about filtering, scoring,
feedback synthesis and failure isolation.

Modelling conventions:
- Severity and category are carried as their string values (the `.value`
  of the Python enums): the engine compares severities through dictionary
  lookups on those strings and supplies defaults for unknown values
  (`levels.get(sev, 2)`, `severity_penalties.get(sev, 0.3)`).
- Python exceptions raised by a plugin or by file fetching are modelled as
  `Except String` results; the `try`/`except` blocks of the engine become
  matches on those results.
- Real-valued scoring (`10.0`, `file_count ** 0.5`, `round(score, 1)`) is
  idealized over `ℝ`; penalty weights are exact rationals.
- Presentation-only fields that no claim touches (summary text, strengths,
  AI insights, timestamps) are omitted from the embedded records; the
  metrics dictionaries are carried as key-value pair lists, with
  `dict.update` modelled as appending the new pairs.
-/

namespace PRReview

/-- One normalized finding, from `CodeIssue` in `core/models.py`. -/
structure CodeIssue where
  file_path : String
  line_number : Nat
  column_number : Option Nat := none
  severity : String
  category : String
  message : String
  rule_id : Option String := none
  suggestion : Option String := none
  code_snippet : Option String := none
  deriving DecidableEq

/-- The change descriptor, from `PRInfo` in `core/models.py` (timestamps
omitted). -/
structure PRInfo where
  number : Nat
  title : String
  description : String
  author : String
  base_branch : String
  head_branch : String
  files_changed : List String
  additions : Nat
  deletions : Nat
  commits : Nat
  deriving DecidableEq

/-- The analysis configuration, from `AnalysisConfig` in `core/models.py`,
with exactly the fields of that model and their defaults.  Note that no
field of the configuration carries penalty weights. -/
structure AnalysisConfig where
  enable_pylint : Bool := true
  enable_flake8 : Bool := true
  enable_black : Bool := true
  enable_mypy : Bool := true
  enable_bandit : Bool := true
  enable_safety : Bool := true
  enable_ai_analysis : Bool := false
  ai_provider : Option String := none
  custom_rules : List String := []
  severity_threshold : String := "medium"
  max_issues_per_file : Nat := 50
  deriving DecidableEq

/-- The feedback record built by `_generate_feedback`, from
`ReviewFeedback` in `core/models.py` (the fields the claims are about). -/
structure ReviewFeedback where
  overall_score : ℝ
  issues : List CodeIssue
  suggestions : List String

/-- The severity rank table of `_get_severity_level` in `core/agent.py`. -/
def severity_levels : List (String × Nat) :=
  [("low", 1), ("medium", 2), ("high", 3), ("critical", 4)]

/-- `_get_severity_level`: convert a severity to its numeric rank;
`levels.get(..., 2)` defaults unrecognized severities to 2. -/
def get_severity_level (severity : String) : Nat :=
  (severity_levels.lookup severity).getD 2

/-- The per-issue penalty table hard-coded in the body of
`_calculate_score` in `core/agent.py`. -/
def severity_penalties : List (String × ℚ) :=
  [("low", 1/10), ("medium", 3/10), ("high", 7/10), ("critical", 3/2)]

/-- The penalty one severity draws from `severity_penalties`;
`severity_penalties.get(..., 0.3)` defaults unrecognized severities. -/
def severity_penalty (severity : String) : ℚ :=
  (severity_penalties.lookup severity).getD (3/10)

/-- The penalty one issue contributes in `_calculate_score`. -/
def issue_penalty (issue : CodeIssue) : ℚ :=
  severity_penalty issue.severity

/-- The `total_penalty` accumulation loop of `_calculate_score`. -/
def total_penalty (issues : List CodeIssue) : ℚ :=
  (issues.map issue_penalty).sum

/-- Rounding to one decimal place, the idealization over `ℝ` of Python's
`round(score, 1)`. -/
noncomputable def round1 (x : ℝ) : ℝ :=
  (round (10 * x) : ℤ) / 10

/-- `_calculate_score` from `core/agent.py`.  It is a method of
`PRReviewAgent`, so the agent's `self.config` is passed explicitly as the
first argument; the method body never reads it — the penalty table above
is a local constant of the body. -/
noncomputable def calculate_score (_config : AnalysisConfig)
    (issues : List CodeIssue) (pr_info : PRInfo) : ℝ :=
  if issues = [] then (10 : ℝ)
  else
    let base_score : ℝ := 10
    let penalty : ℝ := (total_penalty issues : ℝ)
    let file_count : Nat := pr_info.files_changed.length
    let normalized : ℝ :=
      if 0 < file_count then penalty / Real.sqrt (file_count : ℝ) else penalty
    round1 (max 0 (base_score - normalized))

/-- The severity-threshold filter comprehension of `_generate_feedback`. -/
def filter_issues (config : AnalysisConfig) (issues : List CodeIssue) :
    List CodeIssue :=
  issues.filter (fun issue =>
    decide (get_severity_level config.severity_threshold ≤
      get_severity_level issue.severity))

/-- `_extract_suggestions`: the deduplicated collection of suggestion
strings.  The Python body builds a `set`, whose iteration order is
unspecified, so the embedding fixes first-occurrence order with `dedup`;
the truthiness test `if issue.suggestion:` drops both `None` and the empty
string. -/
def extract_suggestions (issues : List CodeIssue) : List String :=
  ((issues.filterMap CodeIssue.suggestion).filter
    (fun s => decide (s ≠ ""))).dedup

/-- `_generate_feedback` from `core/agent.py`: filter by the severity
threshold, score the filtered issues, extract suggestions. -/
noncomputable def generate_feedback (config : AnalysisConfig)
    (issues : List CodeIssue) (pr_info : PRInfo) : ReviewFeedback :=
  let filtered_issues := filter_issues config issues
  { overall_score := calculate_score config filtered_issues pr_info
    issues := filtered_issues
    suggestions := extract_suggestions filtered_issues }

/-- An analyzer plugin as the engine consumes it (the capability set of
§4.1: `should_analyze`, `analyze`, `get_metrics`, a name).  A raised Python
exception is modelled as an `Except.error`. -/
structure Analyzer where
  name : String
  should_analyze : String → Bool
  analyze : String → String → Except String (List CodeIssue)
  get_metrics : String → String → Except String (List (String × String))

/-- The loop body of `_analyze_file` in `core/agent.py`: skip plugins whose
`should_analyze` is false; `issues.extend` runs right after a successful
`analyze`, then `get_metrics` runs, and the surrounding `except` clause
catches a failure of either call — so a failing `analyze` contributes
nothing, while a failing `get_metrics` still leaves the freshly extended
issues in place. -/
def analyze_file_step (file_path content : String)
    (acc : List CodeIssue × List (String × String)) (analyzer : Analyzer) :
    List CodeIssue × List (String × String) :=
  if analyzer.should_analyze file_path then
    match analyzer.analyze file_path content with
    | .error _ => acc
    | .ok file_issues =>
      match analyzer.get_metrics file_path content with
      | .error _ => (acc.1 ++ file_issues, acc.2)
      | .ok file_metrics => (acc.1 ++ file_issues, acc.2 ++ file_metrics)
  else acc

/-- `_analyze_file` from `core/agent.py`: run every enabled analyzer over
one file, accumulating issues and metrics. -/
def analyze_file (analyzers : List Analyzer) (file_path content : String) :
    List CodeIssue × List (String × String) :=
  analyzers.foldl (analyze_file_step file_path content) ([], [])

/-- The binary/media extension exclusion set of `_should_analyze_file`. -/
def skip_extensions : List String :=
  [".png", ".jpg", ".jpeg", ".gif", ".svg", ".ico",
   ".pdf", ".zip", ".tar", ".gz", ".exe", ".dll"]

/-- `_should_analyze_file` from `core/agent.py`. -/
def should_analyze_file (file_path : String) : Bool :=
  ! skip_extensions.any (fun ext => file_path.toLower.endsWith ext)

/-- The per-file loop body of `review_pr` in `core/agent.py`: fetch the
content of one eligible file and analyze it; the `except` clause around the
fetch-and-analyze block turns any fetch failure into skipping that file. -/
def review_files_step (analyzers : List Analyzer)
    (fetch : String → Except String String)
    (acc : List CodeIssue × List (String × List (String × String)))
    (file_path : String) :
    List CodeIssue × List (String × List (String × String)) :=
  if should_analyze_file file_path then
    match fetch file_path with
    | .error _ => acc
    | .ok content =>
      let res := analyze_file analyzers file_path content
      (acc.1 ++ res.1, acc.2 ++ [(file_path, res.2)])
  else acc

/-- The file-iteration loop of `review_pr`: accumulate `all_issues` and
`all_metrics` over the changed files. -/
def review_files (analyzers : List Analyzer)
    (fetch : String → Except String String) (files : List String) :
    List CodeIssue × List (String × List (String × String)) :=
  files.foldl (review_files_step analyzers fetch) ([], [])

/-- `review_pr` from `core/agent.py`, reduced to the feedback value it
packages: collect issues over the changed files, then generate feedback.
The provider is abstracted to the injected `fetch` capability and the
analyzer list stands for the instances `_initialize_analyzers` builds. -/
noncomputable def review_pr (config : AnalysisConfig)
    (analyzers : List Analyzer) (fetch : String → Except String String)
    (pr_info : PRInfo) : ReviewFeedback :=
  generate_feedback config
    (review_files analyzers fetch pr_info.files_changed).1 pr_info

/-- The per-issue penalty table as the spec's reference computation states
it: low=0.1, medium=0.3, high=0.7, critical=1.5 (no other severity is
given a weight). -/
def reference_weights : List (String × ℚ) :=
  [("low", 1/10), ("medium", 3/10), ("high", 7/10), ("critical", 3/2)]

/-- The summed per-issue penalty of the spec's reference computation. -/
def reference_penalty (issues : List CodeIssue) : ℚ :=
  (issues.map (fun i => (reference_weights.lookup i.severity).getD 0)).sum

/-- The changed-file count of the spec's reference computation, a count of
0 treated as 1. -/
def reference_file_count (pr_info : PRInfo) : Nat :=
  if pr_info.files_changed.length = 0 then 1 else pr_info.files_changed.length

/-- Reference computation of the overall score, written from the spec's
words for the refinement claim: start at 10.0; divide the total penalty by
the square root of the changed-file count (0 treated as 1); take
max(0.0, 10.0 minus the normalized penalty); round to one decimal. -/
noncomputable def reference_score (issues : List CodeIssue)
    (pr_info : PRInfo) : ℝ :=
  round1 (max 0 (10 - (reference_penalty issues : ℝ) /
    Real.sqrt (reference_file_count pr_info : ℝ)))

/-- A sample critical-severity finding (the kind the security analyzers
emit for `eval`). -/
def critical_issue : CodeIssue :=
  { file_path := "app.py", line_number := 3, severity := "critical",
    category := "security", message := "Use of eval detected",
    suggestion := some "Avoid eval for security reasons" }

/-- A sample low-severity style finding. -/
def low_issue : CodeIssue :=
  { file_path := "app.py", line_number := 10, severity := "low",
    category := "style", message := "Line too long",
    suggestion := some "Wrap the line" }

/-- A finding whose severity string is outside the four known values. -/
def unknown_issue : CodeIssue :=
  { file_path := "app.py", line_number := 7, severity := "warning",
    category := "style", message := "Nonstandard severity" }

/-- A sample high-severity finding. -/
def issue_a : CodeIssue :=
  { file_path := "a.py", line_number := 1, severity := "high",
    category := "bug", message := "Possible bug" }

/-- A second sample finding of a different severity. -/
def issue_b : CodeIssue :=
  { file_path := "b.py", line_number := 2, severity := "low",
    category := "style", message := "Style nit" }

/-- The finding emitted by `metrics_failing_analyzer` below. -/
def metrics_issue : CodeIssue :=
  { file_path := "m.py", line_number := 1, severity := "high",
    category := "security", message := "Security finding" }

/-- The finding emitted by `ok_analyzer` below. -/
def ok_issue : CodeIssue :=
  { file_path := "f.py", line_number := 2, severity := "medium",
    category := "bug", message := "Bare except clause" }

/-- A change descriptor with exactly one changed file. -/
def single_file_pr : PRInfo :=
  { number := 1, title := "t", description := "d", author := "a",
    base_branch := "main", head_branch := "feature",
    files_changed := ["app.py"], additions := 5, deletions := 1,
    commits := 1 }

/-- A change descriptor with zero changed files. -/
def empty_pr : PRInfo :=
  { number := 2, title := "t2", description := "d2", author := "a",
    base_branch := "main", head_branch := "hotfix", files_changed := [],
    additions := 0, deletions := 0, commits := 0 }

/-- A change descriptor listing three files, the middle one of which the
sample fetch capability below fails on. -/
def fetch_pr : PRInfo :=
  { number := 3, title := "t3", description := "d3", author := "a",
    base_branch := "main", head_branch := "wip",
    files_changed := ["a.py", "bad.py", "b.py"], additions := 9,
    deletions := 2, commits := 2 }

/-- The configuration with every default of `AnalysisConfig` (threshold
`medium`). -/
def default_config : AnalysisConfig := {}

/-- The default configuration with the threshold lowered to `low`. -/
def low_config : AnalysisConfig := { severity_threshold := "low" }

/-- The default configuration with the threshold raised to `high`. -/
def high_config : AnalysisConfig := { severity_threshold := "high" }

/-- A configuration differing from `default_config` in every field. -/
def config_b : AnalysisConfig :=
  { enable_pylint := false, enable_flake8 := false, enable_black := false,
    enable_mypy := false, enable_bandit := false, enable_safety := false,
    enable_ai_analysis := true, ai_provider := some "openai",
    custom_rules := ["r1"], severity_threshold := "low",
    max_issues_per_file := 0 }

/-- A well-behaved plugin: one finding, one metric, no failures. -/
def ok_analyzer : Analyzer :=
  { name := "ok", should_analyze := fun _ => true,
    analyze := fun _ _ => .ok [ok_issue],
    get_metrics := fun _ _ => .ok [("lines_of_code", "10")] }

/-- A plugin whose `analyze` raises. -/
def crashing_analyzer : Analyzer :=
  { name := "crash", should_analyze := fun _ => true,
    analyze := fun _ _ => .error "boom",
    get_metrics := fun _ _ => .ok [] }

/-- A plugin whose `analyze` succeeds with one finding but whose
`get_metrics` raises. -/
def metrics_failing_analyzer : Analyzer :=
  { name := "metricsFail", should_analyze := fun _ => true,
    analyze := fun _ _ => .ok [metrics_issue],
    get_metrics := fun _ _ => .error "metrics crashed" }

/-- A fetch capability that fails on `bad.py` and succeeds elsewhere. -/
def witness_fetch : String → Except String String :=
  fun file_path => if file_path == "bad.py" then .error "404"
    else .ok "x = 1"

theorem round_le_round {x y : ℝ} (h : x ≤ y) : round x ≤ round y := by
  rw [round_eq, round_eq]
  exact Int.floor_mono (by linarith)

theorem round1_mono {x y : ℝ} (h : x ≤ y) : round1 x ≤ round1 y := by
  unfold round1
  have h2 : round (10 * x) ≤ round (10 * y) := round_le_round (by linarith)
  have h3 : ((round (10 * x) : ℤ) : ℝ) ≤ ((round (10 * y) : ℤ) : ℝ) := by
    exact_mod_cast h2
  linarith

theorem round1_nonneg {x : ℝ} (h : 0 ≤ x) : 0 ≤ round1 x := by
  unfold round1
  have h2 : round (0 : ℝ) ≤ round (10 * x) := round_le_round (by linarith)
  rw [round_zero] at h2
  have h3 : (0 : ℝ) ≤ ((round (10 * x) : ℤ) : ℝ) := by exact_mod_cast h2
  linarith

theorem round1_le_ten {x : ℝ} (h : x ≤ 10) : round1 x ≤ 10 := by
  unfold round1
  have h2 : round (10 * x) ≤ round ((100 : ℤ) : ℝ) := round_le_round (by
    push_cast
    linarith)
  rw [round_intCast] at h2
  have h3 : ((round (10 * x) : ℤ) : ℝ) ≤ ((100 : ℤ) : ℝ) := by exact_mod_cast h2
  push_cast at h3
  linarith

theorem severity_penalty_cases (severity : String) :
    severity_penalty severity = 1/10 ∨ severity_penalty severity = 3/10 ∨
      severity_penalty severity = 7/10 ∨ severity_penalty severity = 3/2 := by
  by_cases h1 : severity = "low"
  · exact Or.inl (by simp [severity_penalty, severity_penalties, List.lookup_cons, h1])
  by_cases h2 : severity = "medium"
  · exact Or.inr (Or.inl (by simp [severity_penalty, severity_penalties, List.lookup_cons, h2]))
  by_cases h3 : severity = "high"
  · exact Or.inr (Or.inr (Or.inl (by
      simp [severity_penalty, severity_penalties, List.lookup_cons, h3])))
  by_cases h4 : severity = "critical"
  · exact Or.inr (Or.inr (Or.inr (by
      simp [severity_penalty, severity_penalties, List.lookup_cons, h4])))
  · have e1 : (severity == "low") = false := beq_eq_false_iff_ne.mpr h1
    have e2 : (severity == "medium") = false := beq_eq_false_iff_ne.mpr h2
    have e3 : (severity == "high") = false := beq_eq_false_iff_ne.mpr h3
    have e4 : (severity == "critical") = false := beq_eq_false_iff_ne.mpr h4
    exact Or.inr (Or.inl (by
      simp [severity_penalty, severity_penalties, List.lookup_cons, e1, e2, e3, e4]))

theorem severity_penalty_nonneg (severity : String) :
    0 ≤ severity_penalty severity := by
  rcases severity_penalty_cases severity with h | h | h | h <;> rw [h] <;> norm_num

theorem issue_penalty_nonneg (issue : CodeIssue) : 0 ≤ issue_penalty issue :=
  severity_penalty_nonneg issue.severity

theorem total_penalty_nonneg (issues : List CodeIssue) :
    0 ≤ total_penalty issues := by
  apply List.sum_nonneg
  intro x hx
  obtain ⟨i, _, rfl⟩ := List.mem_map.1 hx
  exact issue_penalty_nonneg i

theorem total_penalty_append (issues : List CodeIssue) (issue : CodeIssue) :
    total_penalty (issues ++ [issue]) = total_penalty issues + issue_penalty issue := by
  simp [total_penalty]

theorem calculate_score_eq (config : AnalysisConfig) (issues : List CodeIssue)
    (pr_info : PRInfo) (h : issues ≠ []) :
    calculate_score config issues pr_info =
      round1 (max 0
        (10 - (if 0 < pr_info.files_changed.length then
            (total_penalty issues : ℝ) / Real.sqrt (pr_info.files_changed.length : ℝ)
          else (total_penalty issues : ℝ)))) := by
  rw [calculate_score, if_neg h]

theorem calculate_score_nil (config : AnalysisConfig) (pr_info : PRInfo) :
    calculate_score config [] pr_info = 10 := by
  simp [calculate_score]

theorem normalized_penalty_nonneg (issues : List CodeIssue) (pr_info : PRInfo) :
    0 ≤ (if 0 < pr_info.files_changed.length then
        (total_penalty issues : ℝ) / Real.sqrt (pr_info.files_changed.length : ℝ)
      else (total_penalty issues : ℝ)) := by
  have hp : (0 : ℝ) ≤ (total_penalty issues : ℝ) := by
    exact_mod_cast total_penalty_nonneg issues
  split
  · exact div_nonneg hp (Real.sqrt_nonneg _)
  · exact hp

theorem calculate_score_nonneg (config : AnalysisConfig)
    (issues : List CodeIssue) (pr_info : PRInfo) :
    0 ≤ calculate_score config issues pr_info := by
  by_cases h : issues = []
  · rw [h, calculate_score_nil]
    norm_num
  · rw [calculate_score_eq config issues pr_info h]
    exact round1_nonneg (le_max_left _ _)

theorem calculate_score_le_ten (config : AnalysisConfig)
    (issues : List CodeIssue) (pr_info : PRInfo) :
    calculate_score config issues pr_info ≤ 10 := by
  by_cases h : issues = []
  · rw [h, calculate_score_nil]
  · rw [calculate_score_eq config issues pr_info h]
    apply round1_le_ten
    apply max_le (by norm_num)
    have := normalized_penalty_nonneg issues pr_info
    linarith

theorem get_severity_level_unknown {s : String} (h1 : s ≠ "low")
    (h2 : s ≠ "medium") (h3 : s ≠ "high") (h4 : s ≠ "critical") :
    get_severity_level s = 2 := by
  have e1 : (s == "low") = false := beq_eq_false_iff_ne.mpr h1
  have e2 : (s == "medium") = false := beq_eq_false_iff_ne.mpr h2
  have e3 : (s == "high") = false := beq_eq_false_iff_ne.mpr h3
  have e4 : (s == "critical") = false := beq_eq_false_iff_ne.mpr h4
  simp [get_severity_level, severity_levels, List.lookup_cons, e1, e2, e3, e4]

theorem severity_penalty_unknown {s : String} (h1 : s ≠ "low")
    (h2 : s ≠ "medium") (h3 : s ≠ "high") (h4 : s ≠ "critical") :
    severity_penalty s = 3/10 := by
  have e1 : (s == "low") = false := beq_eq_false_iff_ne.mpr h1
  have e2 : (s == "medium") = false := beq_eq_false_iff_ne.mpr h2
  have e3 : (s == "high") = false := beq_eq_false_iff_ne.mpr h3
  have e4 : (s == "critical") = false := beq_eq_false_iff_ne.mpr h4
  simp [severity_penalty, severity_penalties, List.lookup_cons, e1, e2, e3, e4]

theorem analyze_file_step_of_error (file_path content : String)
    (acc : List CodeIssue × List (String × String)) {a : Analyzer} {e : String}
    (h : a.analyze file_path content = .error e) :
    analyze_file_step file_path content acc a = acc := by
  unfold analyze_file_step
  by_cases hs : a.should_analyze file_path <;> simp [hs, h]

theorem analyze_file_step_acc (file_path content : String)
    (acc : List CodeIssue × List (String × String)) (a : Analyzer) :
    analyze_file_step file_path content acc a =
      (acc.1 ++ (analyze_file_step file_path content ([], []) a).1,
       acc.2 ++ (analyze_file_step file_path content ([], []) a).2) := by
  unfold analyze_file_step
  by_cases hs : a.should_analyze file_path
  · simp only [hs, if_true]
    cases h1 : a.analyze file_path content with
    | error e => simp
    | ok file_issues =>
      cases h2 : a.get_metrics file_path content with
      | error e => simp
      | ok file_metrics => simp
  · simp [hs]

theorem analyze_file_foldl_acc (file_path content : String)
    (l : List Analyzer) (acc : List CodeIssue × List (String × String)) :
    l.foldl (analyze_file_step file_path content) acc =
      (acc.1 ++ (analyze_file l file_path content).1,
       acc.2 ++ (analyze_file l file_path content).2) := by
  induction l generalizing acc with
  | nil => simp [analyze_file]
  | cons a t ih =>
    rw [List.foldl_cons, ih (analyze_file_step file_path content acc a)]
    have hr : analyze_file (a :: t) file_path content =
        t.foldl (analyze_file_step file_path content)
          (analyze_file_step file_path content ([], []) a) := rfl
    rw [hr, ih (analyze_file_step file_path content ([], []) a)]
    rw [analyze_file_step_acc file_path content acc a]
    simp

theorem analyze_file_append (l1 l2 : List Analyzer)
    (file_path content : String) :
    analyze_file (l1 ++ l2) file_path content =
      ((analyze_file l1 file_path content).1 ++ (analyze_file l2 file_path content).1,
       (analyze_file l1 file_path content).2 ++ (analyze_file l2 file_path content).2) := by
  unfold analyze_file
  rw [List.foldl_append, analyze_file_foldl_acc]
  rfl

theorem analyze_file_singleton_of_error {a : Analyzer} {e : String}
    (file_path content : String) (h : a.analyze file_path content = .error e) :
    analyze_file [a] file_path content = ([], []) := by
  unfold analyze_file
  rw [List.foldl_cons, analyze_file_step_of_error file_path content ([], []) h]
  rfl

theorem review_files_step_of_error (analyzers : List Analyzer)
    (fetch : String → Except String String)
    (acc : List CodeIssue × List (String × List (String × String)))
    {f e : String} (h : fetch f = .error e) :
    review_files_step analyzers fetch acc f = acc := by
  unfold review_files_step
  by_cases hs : should_analyze_file f <;> simp [hs, h]

/-- Claim C2: for every configuration, filtered issue list and change
descriptor the overall score satisfies 0.0 ≤ score ≤ 10.0, and every
feedback record the engine constructs carries an `overall_score` within the
same bounds. -/
theorem overall_score_bounds :
    ∀ (config : AnalysisConfig) (issues : List CodeIssue) (pr_info : PRInfo),
      (0 ≤ calculate_score config issues pr_info
       ∧ calculate_score config issues pr_info ≤ 10)
      ∧ (0 ≤ (generate_feedback config issues pr_info).overall_score
         ∧ (generate_feedback config issues pr_info).overall_score ≤ 10) := by
  intro c l p
  refine ⟨⟨calculate_score_nonneg c l p, calculate_score_le_ten c l p⟩, ?_, ?_⟩
  · exact calculate_score_nonneg c (filter_issues c l) p
  · exact calculate_score_le_ten c (filter_issues c l) p

/-- Claim C3: whenever the filtered issue list is empty — in particular for
a change with zero files — the overall score is exactly 10.0. -/
theorem empty_filtered_score_is_ten :
    (∀ (config : AnalysisConfig) (pr_info : PRInfo),
        calculate_score config [] pr_info = 10)
    ∧ ∀ (config : AnalysisConfig) (issues : List CodeIssue) (pr_info : PRInfo),
        filter_issues config issues = [] →
        (generate_feedback config issues pr_info).overall_score = 10 := by
  constructor
  · exact fun c p => calculate_score_nil c p
  · intro c l p h
    show calculate_score c (filter_issues c l) p = 10
    rw [h, calculate_score_nil]

theorem empty_filtered_score_is_ten_witness :
    filter_issues default_config [low_issue] = []
    ∧ (generate_feedback default_config [low_issue] empty_pr).overall_score = 10 :=
  ⟨by decide,
   empty_filtered_score_is_ten.2 default_config [low_issue] empty_pr (by decide)⟩

/-- Claim C4: the issue list kept in the feedback record is exactly the
subsequence of the accumulated issues whose severity rank reaches the
configured threshold rank, in their original relative order, so every kept
issue meets the threshold. -/
theorem filtered_issues_exactly_threshold :
    ∀ (config : AnalysisConfig) (issues : List CodeIssue) (pr_info : PRInfo),
      List.Sublist (generate_feedback config issues pr_info).issues issues
      ∧ ∀ i, i ∈ (generate_feedback config issues pr_info).issues ↔
          (i ∈ issues ∧
            get_severity_level config.severity_threshold ≤
              get_severity_level i.severity) := by
  intro c l p
  constructor
  · show List.Sublist (filter_issues c l) l
    exact List.filter_sublist l
  · intro i
    show i ∈ filter_issues c l ↔ _
    simp [filter_issues, List.mem_filter]

/-- Claim C9: the suggestions of the produced feedback have no duplicates
and no empty strings: a string appears there exactly when it is the
non-empty suggestion of some filtered issue. -/
theorem suggestions_dedup_nonempty :
    ∀ (config : AnalysisConfig) (issues : List CodeIssue) (pr_info : PRInfo),
      ((generate_feedback config issues pr_info).suggestions).Nodup
      ∧ "" ∉ (generate_feedback config issues pr_info).suggestions
      ∧ ∀ s, s ∈ (generate_feedback config issues pr_info).suggestions ↔
          (s ≠ "" ∧ ∃ i ∈ filter_issues config issues, i.suggestion = some s) := by
  intro c l p
  refine ⟨?_, ?_, ?_⟩
  · show (extract_suggestions (filter_issues c l)).Nodup
    exact List.nodup_dedup _
  · show "" ∉ extract_suggestions (filter_issues c l)
    simp [extract_suggestions, List.mem_dedup, List.mem_filter]
  · intro s
    show s ∈ extract_suggestions (filter_issues c l) ↔ _
    simp [extract_suggestions, List.mem_dedup, List.mem_filter,
      List.mem_filterMap]
    tauto

/-- Claim C8 is false on the code: the penalty weights are hard-coded in
`_calculate_score` and `AnalysisConfig` carries no weight field, so two
configurations that differ in every field still produce the same score on
the same issues. -/
theorem config_weights_counterexample :
    config_b ≠ default_config
    ∧ calculate_score default_config [critical_issue] single_file_pr
        = calculate_score config_b [critical_issue] single_file_pr
    ∧ (generate_feedback default_config [critical_issue] single_file_pr).overall_score
        = (generate_feedback config_b [critical_issue] single_file_pr).overall_score := by
  refine ⟨by decide, rfl, ?_⟩
  have h1 : filter_issues default_config [critical_issue] = [critical_issue] := by
    decide
  have h2 : filter_issues config_b [critical_issue] = [critical_issue] := by
    decide
  show calculate_score default_config
        (filter_issues default_config [critical_issue]) single_file_pr
      = calculate_score config_b
        (filter_issues config_b [critical_issue]) single_file_pr
  rw [h1, h2]
  rfl

/-- Claim C8 (amended): the per-issue penalty weights are hard-coded
constants of `_calculate_score` (low=0.1, medium=0.3, high=0.7,
critical=1.5), not injected through `AnalysisConfig`; the score of a given
issue list and change descriptor is the same under every configuration. -/
theorem score_independent_of_config :
    (∀ (c1 c2 : AnalysisConfig) (issues : List CodeIssue) (pr_info : PRInfo),
        calculate_score c1 issues pr_info = calculate_score c2 issues pr_info)
    ∧ severity_penalty "low" = 1/10 ∧ severity_penalty "medium" = 3/10
    ∧ severity_penalty "high" = 7/10 ∧ severity_penalty "critical" = 3/2 := by
  refine ⟨fun c1 c2 l p => rfl, ?_, ?_, ?_, ?_⟩ <;>
    simp [severity_penalty, severity_penalties, List.lookup_cons]

/-- Claim C1: on every non-empty filtered issue list of known severities
the engine's score coincides with the spec's reference computation, and in
particular one critical issue at threshold `low` with one changed file
scores exactly 8.5. -/
theorem score_matches_reference :
    (∀ (config : AnalysisConfig) (issues : List CodeIssue) (pr_info : PRInfo),
        issues ≠ [] →
        (∀ i ∈ issues,
          i.severity ∈ (["low", "medium", "high", "critical"] : List String)) →
        calculate_score config issues pr_info = reference_score issues pr_info)
    ∧ (generate_feedback low_config [critical_issue] single_file_pr).overall_score
        = 8.5 := by
  constructor
  · intro c l p hne hknown
    rw [calculate_score_eq c l p hne]
    have hp : reference_penalty l = total_penalty l := by
      unfold reference_penalty total_penalty
      congr 1
      apply List.map_congr_left
      intro i hi
      have hs := hknown i hi
      simp only [List.mem_cons, List.not_mem_nil, or_false] at hs
      rcases hs with h | h | h | h <;>
        simp [h, issue_penalty, severity_penalty, severity_penalties,
          reference_weights, List.lookup_cons]
    by_cases hn : p.files_changed.length = 0
    · simp [reference_score, reference_file_count, hn, hp, Real.sqrt_one]
    · have hpos : 0 < p.files_changed.length := Nat.pos_of_ne_zero hn
      simp [reference_score, reference_file_count, hn, hp, hpos]
  · have hf : filter_issues low_config [critical_issue] = [critical_issue] := by
      decide
    show calculate_score low_config
        (filter_issues low_config [critical_issue]) single_file_pr = 8.5
    rw [hf, calculate_score_eq low_config [critical_issue] single_file_pr
      (by simp)]
    have h1 : total_penalty [critical_issue] = 3/2 := by
      simp [total_penalty, issue_penalty, severity_penalty, severity_penalties,
        List.lookup_cons, critical_issue]
    simp only [h1, single_file_pr]
    norm_num [round1, Real.sqrt_one]

theorem score_matches_reference_witness :
    (([critical_issue] : List CodeIssue) ≠ []
     ∧ ∀ i ∈ ([critical_issue] : List CodeIssue),
         i.severity ∈ (["low", "medium", "high", "critical"] : List String))
    ∧ calculate_score default_config [critical_issue] single_file_pr
        = reference_score [critical_issue] single_file_pr :=
  ⟨⟨by decide, by decide⟩,
   score_matches_reference.1 default_config [critical_issue] single_file_pr
     (by decide) (by decide)⟩

/-- Claim C7: with the file count fixed, the score is invariant under any
permutation of the issue list, and appending one more issue of any severity
never increases it. -/
theorem score_perm_invariant_and_monotone :
    (∀ (config : AnalysisConfig) (l l2 : List CodeIssue) (pr_info : PRInfo),
        l.Perm l2 →
        calculate_score config l pr_info = calculate_score config l2 pr_info)
    ∧ ∀ (config : AnalysisConfig) (l : List CodeIssue) (i : CodeIssue)
        (pr_info : PRInfo),
        calculate_score config (l ++ [i]) pr_info ≤
          calculate_score config l pr_info := by
  constructor
  · intro c l l2 p h
    by_cases hl : l = []
    · subst hl
      rw [h.symm.eq_nil]
    · have hl2 : l2 ≠ [] := by
        intro h2
        subst h2
        exact hl h.eq_nil
      rw [calculate_score_eq c l p hl, calculate_score_eq c l2 p hl2,
        show total_penalty l = total_penalty l2 from (h.map issue_penalty).sum_eq]
  · intro c l i p
    by_cases hl : l = []
    · subst hl
      rw [List.nil_append, calculate_score_nil]
      exact calculate_score_le_ten c [i] p
    · have hli : l ++ [i] ≠ [] := by simp
      rw [calculate_score_eq c l p hl, calculate_score_eq c (l ++ [i]) p hli]
      apply round1_mono
      apply max_le_max le_rfl
      have hip : (0 : ℝ) ≤ (issue_penalty i : ℝ) := by
        exact_mod_cast issue_penalty_nonneg i
      have hpen : (total_penalty l : ℝ) ≤ (total_penalty (l ++ [i]) : ℝ) := by
        rw [total_penalty_append]
        push_cast
        linarith
      split_ifs with hn
      · have hs : 0 < Real.sqrt (p.files_changed.length : ℝ) :=
          Real.sqrt_pos.mpr (by exact_mod_cast hn)
        have := (div_le_div_iff_of_pos_right hs).mpr hpen
        linarith
      · linarith

theorem score_perm_invariant_and_monotone_witness :
    ([issue_a, issue_b].Perm [issue_b, issue_a]
     ∧ calculate_score default_config [issue_a, issue_b] single_file_pr
         = calculate_score default_config [issue_b, issue_a] single_file_pr)
    ∧ calculate_score default_config ([issue_a] ++ [issue_b]) single_file_pr
        ≤ calculate_score default_config [issue_a] single_file_pr :=
  ⟨⟨List.Perm.swap issue_b issue_a [],
    score_perm_invariant_and_monotone.1 default_config [issue_a, issue_b]
      [issue_b, issue_a] single_file_pr (List.Perm.swap issue_b issue_a [])⟩,
   score_perm_invariant_and_monotone.2 default_config [issue_a] issue_b
     single_file_pr⟩

/-- Claim C10: an issue whose severity is outside the four known values is
handled exactly like a medium one — rank 2 in filtering, penalty 0.3 in
scoring — so it survives a `medium` threshold and is dropped by a `high`
threshold. -/
theorem unknown_severity_treated_as_medium :
    ∀ (s : String) (i : CodeIssue),
      s ∉ (["low", "medium", "high", "critical"] : List String) →
      i.severity = s →
      (get_severity_level s = 2
       ∧ severity_penalty s = 3/10
       ∧ get_severity_level s = get_severity_level "medium"
       ∧ issue_penalty i = severity_penalty "medium"
       ∧ (∀ config : AnalysisConfig, config.severity_threshold = "medium" →
           filter_issues config [i] = [i])
       ∧ ∀ config : AnalysisConfig, config.severity_threshold = "high" →
           filter_issues config [i] = []) := by
  intro s i hmem hsev
  simp only [List.mem_cons, List.not_mem_nil, or_false, not_or] at hmem
  obtain ⟨h1, h2, h3, h4⟩ := hmem
  have hl : get_severity_level s = 2 := get_severity_level_unknown h1 h2 h3 h4
  have hp : severity_penalty s = 3/10 := severity_penalty_unknown h1 h2 h3 h4
  refine ⟨hl, hp, ?_, ?_, ?_, ?_⟩
  · rw [hl]
    decide
  · rw [issue_penalty, hsev, hp]
    simp [severity_penalty, severity_penalties, List.lookup_cons]
  · intro config hc
    have ht : get_severity_level config.severity_threshold = 2 := by
      rw [hc]
      decide
    simp [filter_issues, ht, hsev, hl]
  · intro config hc
    have ht : get_severity_level config.severity_threshold = 3 := by
      rw [hc]
      decide
    simp [filter_issues, ht, hsev, hl]

theorem unknown_severity_treated_as_medium_witness :
    ("warning" ∉ (["low", "medium", "high", "critical"] : List String)
     ∧ unknown_issue.severity = "warning")
    ∧ (get_severity_level "warning" = 2
       ∧ severity_penalty "warning" = 3/10
       ∧ filter_issues default_config [unknown_issue] = [unknown_issue]
       ∧ filter_issues high_config [unknown_issue] = []) :=
  ⟨⟨by decide, rfl⟩,
   (unknown_severity_treated_as_medium "warning" unknown_issue (by decide) rfl).1,
   (unknown_severity_treated_as_medium "warning" unknown_issue (by decide) rfl).2.1,
   (unknown_severity_treated_as_medium "warning" unknown_issue (by decide)
       rfl).2.2.2.2.1 default_config rfl,
   (unknown_severity_treated_as_medium "warning" unknown_issue (by decide)
       rfl).2.2.2.2.2 high_config rfl⟩

/-- Claim C5 is false as stated for `get_metrics`: a plugin whose
`get_metrics` raises after a successful `analyze` has already extended the
issue list, so it contributes its finding rather than zero issues. -/
theorem metrics_failure_still_contributes :
    metrics_failing_analyzer.get_metrics "m.py" "code" = .error "metrics crashed"
    ∧ (analyze_file [metrics_failing_analyzer] "m.py" "code").1 = [metrics_issue]
    ∧ ([metrics_issue] : List CodeIssue) ≠ [] :=
  ⟨rfl, rfl, by decide⟩

/-- Claim C5 (amended): plugin failures are caught at the call site and the
remaining plugins still run — a failing `analyze` contributes neither
issues nor metrics, while a `get_metrics` failure after a successful
`analyze` keeps the plugin's already-extended issues and drops only its
metrics; either way no failure reaches the caller. -/
theorem plugin_failure_isolation :
    ∀ (pre post : List Analyzer) (a : Analyzer) (file_path content : String),
      (∀ e, a.analyze file_path content = .error e →
        analyze_file (pre ++ a :: post) file_path content
          = analyze_file (pre ++ post) file_path content)
      ∧ ∀ (file_issues : List CodeIssue) (e : String),
          a.should_analyze file_path = true →
          a.analyze file_path content = .ok file_issues →
          a.get_metrics file_path content = .error e →
          analyze_file (pre ++ a :: post) file_path content
            = ((analyze_file pre file_path content).1 ++ file_issues
                 ++ (analyze_file post file_path content).1,
               (analyze_file pre file_path content).2
                 ++ (analyze_file post file_path content).2) := by
  intro pre post a fp c
  have hsplit : pre ++ a :: post = pre ++ [a] ++ post := by simp
  constructor
  · intro e he
    rw [hsplit, analyze_file_append, analyze_file_append,
      analyze_file_singleton_of_error fp c he, analyze_file_append pre post]
    simp
  · intro fi e hs ha hm
    have hsing : analyze_file [a] fp c = (fi, []) := by
      unfold analyze_file analyze_file_step
      simp [hs, ha, hm]
    rw [hsplit, analyze_file_append, analyze_file_append, hsing]
    simp [List.append_assoc]

theorem plugin_failure_isolation_witness :
    (crashing_analyzer.analyze "f.py" "x" = .error "boom"
     ∧ analyze_file [ok_analyzer, crashing_analyzer] "f.py" "x"
         = analyze_file [ok_analyzer] "f.py" "x")
    ∧ (metrics_failing_analyzer.should_analyze "f.py" = true
       ∧ metrics_failing_analyzer.analyze "f.py" "x" = .ok [metrics_issue]
       ∧ metrics_failing_analyzer.get_metrics "f.py" "x" = .error "metrics crashed"
       ∧ analyze_file [ok_analyzer, metrics_failing_analyzer] "f.py" "x"
           = ((analyze_file [ok_analyzer] "f.py" "x").1 ++ [metrics_issue]
                ++ (analyze_file ([] : List Analyzer) "f.py" "x").1,
              (analyze_file [ok_analyzer] "f.py" "x").2
                ++ (analyze_file ([] : List Analyzer) "f.py" "x").2)) :=
  ⟨⟨rfl,
    (plugin_failure_isolation [ok_analyzer] [] crashing_analyzer "f.py" "x").1
      "boom" rfl⟩,
   rfl, rfl, rfl,
   (plugin_failure_isolation [ok_analyzer] [] metrics_failing_analyzer
       "f.py" "x").2 [metrics_issue] "metrics crashed" rfl rfl rfl⟩

/-- Claim C6: a failure to fetch one file's content skips exactly that file
— the collected issues and metrics equal those of the run over the
remaining files, and the feedback of the whole review reflects exactly the
other files' issues; the failure never escapes. -/
theorem fetch_failure_skips_file :
    ∀ (config : AnalysisConfig) (analyzers : List Analyzer)
      (fetch : String → Except String String) (pre post : List String)
      (f e : String) (pr_info : PRInfo),
      fetch f = .error e →
      (review_files analyzers fetch (pre ++ f :: post)
          = review_files analyzers fetch (pre ++ post)
       ∧ (pr_info.files_changed = pre ++ f :: post →
           (review_pr config analyzers fetch pr_info).issues
             = filter_issues config
                 (review_files analyzers fetch (pre ++ post)).1)) := by
  intro config analyzers fetch pre post f e pr h
  have h1 : review_files analyzers fetch (pre ++ f :: post)
      = review_files analyzers fetch (pre ++ post) := by
    unfold review_files
    rw [List.foldl_append, List.foldl_append, List.foldl_cons,
      review_files_step_of_error analyzers fetch _ h]
  refine ⟨h1, ?_⟩
  intro hf
  show filter_issues config (review_files analyzers fetch pr.files_changed).1
      = _
  rw [hf, h1]

theorem fetch_failure_skips_file_witness :
    (witness_fetch "bad.py" = .error "404"
     ∧ fetch_pr.files_changed = ["a.py"] ++ "bad.py" :: ["b.py"])
    ∧ (review_files [ok_analyzer] witness_fetch (["a.py"] ++ "bad.py" :: ["b.py"])
         = review_files [ok_analyzer] witness_fetch (["a.py"] ++ ["b.py"])
       ∧ (review_pr default_config [ok_analyzer] witness_fetch fetch_pr).issues
           = filter_issues default_config
               (review_files [ok_analyzer] witness_fetch
                 (["a.py"] ++ ["b.py"])).1) :=
  ⟨⟨rfl, rfl⟩,
   (fetch_failure_skips_file default_config [ok_analyzer] witness_fetch
       ["a.py"] ["b.py"] "bad.py" "404" fetch_pr rfl).1,
   (fetch_failure_skips_file default_config [ok_analyzer] witness_fetch
       ["a.py"] ["b.py"] "bad.py" "404" fetch_pr rfl).2 rfl⟩

end PRReview
